import Mathlib

/-
  Verification of the power/safety/status control triad of the `watch`
  repository, shallowly embedded in Lean 4.

  Python floats are modelled as exact rationals (all constants in the code
  are short decimals, and every claim is about order/equality relations the
  code establishes by direct comparison, not about rounding).  Mutating
  methods become state-passing functions; `print`/logging calls are dropped;
  wall-clock timestamps are passed in as parameters.
-/

set_option maxHeartbeats 1000000

namespace Watch

/-! ## src/core/power_management.py -/

/-- Enum `PowerState` from `src/core/power_management.py`. -/
inductive PowerState where
  | standby
  | low_power
  | active
  | burst
  | charging
deriving DecidableEq

/-- Dataclass `PowerProfile` (voltage, current, max_power, min_power). -/
structure PowerProfile where
  voltage : ℚ
  current : ℚ
  max_power : ℚ
  min_power : ℚ
deriving DecidableEq

/-- The fixed `power_profiles` table built in `PowerManagementSystem.__init__`. -/
def power_profiles : PowerState → PowerProfile
  | .standby   => ⟨33/10, 1/100, 33/1000, 1/100⟩
  | .low_power => ⟨33/10, 1/10, 33/100, 1/10⟩
  | .active    => ⟨33/10, 1/2, 165/100, 1/2⟩
  | .burst     => ⟨37/10, 1, 37/10, 165/100⟩
  | .charging  => ⟨5, 1, 5, 37/10⟩

/-- Class `LithiumSulfurBattery`: fields set in `__init__`. -/
structure LithiumSulfurBattery where
  capacity : ℚ := 1000
  voltage : ℚ := 37/10
  current : ℚ := 3/10
deriving DecidableEq

/-- Method `LithiumSulfurBattery.get_available_power`: `voltage * current`. -/
def LithiumSulfurBattery.get_available_power (b : LithiumSulfurBattery) : ℚ :=
  b.voltage * b.current

/-- Method `LithiumSulfurBattery.get_current_power`: `voltage * current`. -/
def LithiumSulfurBattery.get_current_power (b : LithiumSulfurBattery) : ℚ :=
  b.voltage * b.current

/-- Method `LithiumSulfurBattery.set_output`: clamps voltage to 3.7 V and current to 1 A. -/
def LithiumSulfurBattery.set_output (b : LithiumSulfurBattery)
    (voltage current : ℚ) : LithiumSulfurBattery :=
  { b with voltage := min voltage (37/10), current := min current 1 }

/-- Class `Supercapacitor`: fields set in `__init__` (capacity 100 F, voltage 0 V,
burst mode off). -/
structure Supercapacitor where
  capacity : ℚ := 100
  voltage : ℚ := 0
  in_burst_mode : Bool := false
deriving DecidableEq

/-- Method `Supercapacitor.enable_burst_mode`. -/
def Supercapacitor.enable_burst_mode (s : Supercapacitor) : Supercapacitor :=
  { s with in_burst_mode := true }

/-- Method `Supercapacitor.disable_burst_mode`. -/
def Supercapacitor.disable_burst_mode (s : Supercapacitor) : Supercapacitor :=
  { s with in_burst_mode := false }

/-- Method `Supercapacitor.charge`: the method body is `pass`, so the state is
returned unchanged (the `power` argument is accepted and ignored). -/
def Supercapacitor.charge (s : Supercapacitor) (_power : ℚ) : Supercapacitor :=
  s

/-- Method `Supercapacitor.get_available_power`: `0.5 * C * V**2` when `voltage > 0`,
else 0. -/
def Supercapacitor.get_available_power (s : Supercapacitor) : ℚ :=
  if s.voltage > 0 then 1/2 * s.capacity * s.voltage ^ 2 else 0

/-- Method `Supercapacitor.get_current_power`: available power while in burst mode,
else 0. -/
def Supercapacitor.get_current_power (s : Supercapacitor) : ℚ :=
  if s.in_burst_mode then s.get_available_power else 0

/-- Class `ThermalGenerator` (efficiency 0.05). -/
structure ThermalGenerator where
  efficiency : ℚ := 1/20
deriving DecidableEq

/-- Method `ThermalGenerator.get_current_power`: `0.1 * efficiency`. -/
def ThermalGenerator.get_current_power (g : ThermalGenerator) : ℚ :=
  1/10 * g.efficiency

/-- Class `MotionGenerator` (efficiency 0.1). -/
structure MotionGenerator where
  efficiency : ℚ := 1/10
deriving DecidableEq

/-- Method `MotionGenerator.get_current_power`: `0.05 * efficiency`. -/
def MotionGenerator.get_current_power (g : MotionGenerator) : ℚ :=
  1/20 * g.efficiency

/-- The dict returned by `monitor_power_consumption` (and the entries of
`power_history`). -/
structure PowerSnapshot where
  timestamp : ℚ
  state : PowerState
  battery_level : ℚ
  temperature : ℚ
  primary_power : ℚ
  supercap_power : ℚ
  thermal_power : ℚ
  motion_power : ℚ
deriving DecidableEq

/-- Mutable state of class `PowerManagementSystem`, with the `__init__`
values as defaults. -/
structure PowerManagementSystem where
  current_state : PowerState := .standby
  battery_level : ℚ := 100
  temperature : ℚ := 25
  primary_battery : LithiumSulfurBattery := {}
  supercapacitor : Supercapacitor := {}
  thermal_generator : ThermalGenerator := {}
  motion_generator : MotionGenerator := {}
  power_history : List PowerSnapshot := []
deriving DecidableEq

/-- The `valid_transitions` adjacency table from
`PowerManagementSystem._validate_state_transition`. -/
def valid_transitions : PowerState → List PowerState
  | .standby   => [.active, .low_power]
  | .low_power => [.standby, .active]
  | .active    => [.standby, .low_power, .burst]
  | .burst     => [.active, .standby]
  | .charging  => [.standby, .low_power]

/-- Method `PowerManagementSystem._validate_state_transition`: the dict covers every
`PowerState`, so the method reduces to membership of `new_state` in the table
entry for `current_state`. -/
def PowerManagementSystem.validate_state_transition
    (pms : PowerManagementSystem) (new_state : PowerState) : Bool :=
  decide (new_state ∈ valid_transitions pms.current_state)

/-- The total available power summed in
`PowerManagementSystem._check_power_availability`. -/
def PowerManagementSystem.total_available_power
    (pms : PowerManagementSystem) : ℚ :=
  pms.primary_battery.get_available_power +
    pms.supercapacitor.get_available_power +
    pms.thermal_generator.get_current_power +
    pms.motion_generator.get_current_power

/-- Method `PowerManagementSystem._check_power_availability`: returns
`total_available_power >= required_power` (the `print` logging is dropped). -/
def PowerManagementSystem.check_power_availability
    (pms : PowerManagementSystem) (required_power : ℚ) : Bool :=
  decide (required_power ≤ pms.total_available_power)

/-- Method `PowerManagementSystem._apply_power_profile`: sets the battery output from
the target profile and toggles supercapacitor burst mode (enabled only for
`BURST`). -/
def PowerManagementSystem.apply_power_profile
    (pms : PowerManagementSystem) (state : PowerState) : PowerManagementSystem :=
  let profile := power_profiles state
  let pms1 := { pms with
    primary_battery := pms.primary_battery.set_output profile.voltage profile.current }
  if state = .burst then
    { pms1 with supercapacitor := pms1.supercapacitor.enable_burst_mode }
  else
    { pms1 with supercapacitor := pms1.supercapacitor.disable_burst_mode }

/-- Failure reasons of `request_power_state`.  The Python method returns a
bare `False` from two distinct early-return sites; each constructor tags one
of those sites (the validation failure and the power-availability failure),
matching the spec's `PowerError` taxonomy. -/
inductive PowerError where
  | invalidTransition
  | insufficientPower
deriving DecidableEq

/-- Method `PowerManagementSystem.request_power_state`: validates the transition,
checks power availability for `profile[target].min_power`, and on success
updates `current_state` and applies the profile.  The result is paired with
the post-call system state (unchanged on the early returns). -/
def PowerManagementSystem.request_power_state
    (pms : PowerManagementSystem) (requested_state : PowerState) :
    Except PowerError Unit × PowerManagementSystem :=
  if pms.validate_state_transition requested_state then
    let required_power := (power_profiles requested_state).min_power
    if pms.check_power_availability required_power then
      let pms1 := { pms with current_state := requested_state }
      (Except.ok (), pms1.apply_power_profile requested_state)
    else
      (Except.error PowerError.insufficientPower, pms)
  else
    (Except.error PowerError.invalidTransition, pms)

/-- Method `PowerManagementSystem.monitor_power_consumption`: builds the timestamped
snapshot from the four sources' *current* power, appends it to
`power_history` and returns it.  The wall-clock `time.time()` is passed in as
`timestamp`. -/
def PowerManagementSystem.monitor_power_consumption
    (pms : PowerManagementSystem) (timestamp : ℚ) :
    PowerSnapshot × PowerManagementSystem :=
  let d : PowerSnapshot := {
    timestamp := timestamp
    state := pms.current_state
    battery_level := pms.battery_level
    temperature := pms.temperature
    primary_power := pms.primary_battery.get_current_power
    supercap_power := pms.supercapacitor.get_current_power
    thermal_power := pms.thermal_generator.get_current_power
    motion_power := pms.motion_generator.get_current_power }
  (d, { pms with power_history := pms.power_history ++ [d] })

/-- Method `PowerManagementSystem.charge_supercapacitor`: when `battery_level > 50`
calls `Supercapacitor.charge` with 20% of the battery's available power. -/
def PowerManagementSystem.charge_supercapacitor
    (pms : PowerManagementSystem) : PowerManagementSystem :=
  if pms.battery_level > 50 then
    { pms with supercapacitor :=
        pms.supercapacitor.charge (pms.primary_battery.get_available_power * (2/10)) }
  else
    pms

/-- The freshly constructed `PowerManagementSystem()` (all `__init__`
defaults). -/
def pmsInit : PowerManagementSystem := {}

/-! ## src/core/power_management/battery_controller.py -/

/-- Method `BatteryController._calculate_battery_level`: linear interpolation of the
voltage between `min_voltage = 3.2` and `max_voltage = 4.2`, scaled to a
percentage and clamped to `[0, 100]` by `max(min(level, 100.0), 0.0)`. -/
def calculate_battery_level (voltage : ℚ) : ℚ :=
  let min_voltage : ℚ := 32/10
  let max_voltage : ℚ := 42/10
  let level := (voltage - min_voltage) / (max_voltage - min_voltage) * 100
  max (min level 100) 0

/-! ## src/core/system_interface/safety_manager.py -/

/-- Enum `SafetyCondition`. -/
inductive SafetyCondition where
  | temperature
  | power
  | projection
  | mechanical
  | environment
deriving DecidableEq

/-- Enum `SafetyAction`. -/
inductive SafetyAction where
  | notify
  | throttle
  | shutdown
  | emergency_shutdown
deriving DecidableEq

/-- Dataclass `SafetyThreshold` (field order as in the source).  The
dataclass performs no validation: any field values construct a value. -/
structure SafetyThreshold where
  condition : SafetyCondition
  warning_level : ℚ
  critical_level : ℚ
  action : SafetyAction
  recovery_level : ℚ
deriving DecidableEq

/-- The `_thresholds` dict built in `SafetyManager.__init__`. -/
def safety_thresholds : SafetyCondition → SafetyThreshold
  | .temperature => ⟨.temperature, 40, 50, .shutdown, 35⟩
  | .power       => ⟨.power, 15, 5, .shutdown, 20⟩
  | .projection  => ⟨.projection, 80, 95, .throttle, 70⟩
  | .mechanical  => ⟨.mechanical, 85, 95, .emergency_shutdown, 75⟩
  | .environment => ⟨.environment, 85, 95, .notify, 75⟩

/-- The three distinct `description` templates used at the three
`_safety_events.append` sites (`Critical ...`, `Warning ...`,
`... recovered to safe level`). -/
inductive SafetyEventKind where
  | critical_entry
  | warning_entry
  | recovery
deriving DecidableEq

/-- Dataclass `SafetyEvent` (timestamp dropped; the `description` string is
abstracted by which of the three templates produced it). -/
structure SafetyEvent where
  condition : SafetyCondition
  level : ℚ
  action_taken : SafetyAction
  kind : SafetyEventKind
deriving DecidableEq

/-- The `SafetyManager` state tracked for one `SafetyCondition`:
`active_warning` is membership of the condition in `_active_warnings`,
`safety_events` is the `_safety_events` list restricted to this condition,
and `actions_executed` logs each `_execute_safety_action` call made for it.
(The `_record_alert` notifications sent to the status monitor dispatch the
manager's own alert callbacks, which map the `SAFETY` component to no
condition and so are no-ops; they are dropped here.) -/
structure SafetyMonitorState where
  active_warning : Bool := false
  safety_events : List SafetyEvent := []
  actions_executed : List SafetyAction := []
deriving DecidableEq

/-- Method `SafetyManager._check_safety_threshold` for one condition with current
value `v`: at or above critical, `_handle_critical_condition` records a
critical event and executes the threshold action (every time, with no
"already critical" tracking); else at or above warning,
`_handle_warning_condition` records a warning event only on entry into
`_active_warnings`; else, if the condition is in `_active_warnings` and `v`
is at or below recovery, `_handle_condition_recovery` clears it and records
a recovery event. -/
def check_safety_threshold (t : SafetyThreshold) (v : ℚ)
    (s : SafetyMonitorState) : SafetyMonitorState :=
  if v ≥ t.critical_level then
    { s with
      safety_events :=
        s.safety_events ++ [⟨t.condition, v, t.action, .critical_entry⟩],
      actions_executed := s.actions_executed ++ [t.action] }
  else if v ≥ t.warning_level then
    if s.active_warning then
      s
    else
      { s with
        active_warning := true,
        safety_events :=
          s.safety_events ++ [⟨t.condition, v, .notify, .warning_entry⟩] }
  else if s.active_warning ∧ v ≤ t.recovery_level then
    { s with
      active_warning := false,
      safety_events :=
        s.safety_events ++ [⟨t.condition, v, .notify, .recovery⟩] }
  else
    s

/-- Method `SafetyManager._process_safety_actions` restricted to one condition:
executes the threshold action (again) whenever the current value is at or
above the critical level. -/
def process_safety_actions (t : SafetyThreshold) (v : ℚ)
    (s : SafetyMonitorState) : SafetyMonitorState :=
  if v ≥ t.critical_level then
    { s with actions_executed := s.actions_executed ++ [t.action] }
  else
    s

/-- One iteration of `SafetyManager._safety_monitor_loop` for one condition:
`_check_safety_threshold` followed by `_process_safety_actions`. -/
def safety_monitor_tick (t : SafetyThreshold) (v : ℚ)
    (s : SafetyMonitorState) : SafetyMonitorState :=
  process_safety_actions t v (check_safety_threshold t v s)

/-- Feeding the monitor a sequence of per-tick values for one condition. -/
def run_safety_monitor (t : SafetyThreshold) (vs : List ℚ)
    (s : SafetyMonitorState) : SafetyMonitorState :=
  vs.foldl (fun s v => safety_monitor_tick t v s) s

/-- Number of recorded events of a given kind. -/
def count_events_of_kind (k : SafetyEventKind) : List SafetyEvent → Nat
  | [] => 0
  | e :: es => (if e.kind = k then 1 else 0) + count_events_of_kind k es

/-! ## src/core/system_interface/status_monitor.py -/

/-- Enum `SystemComponent`. -/
inductive SystemComponent where
  | power
  | projection
  | thermal
  | motion
  | interface
  | safety
deriving DecidableEq

/-- Enum `AlertLevel`. -/
inductive AlertLevel where
  | info
  | warning
  | error
  | critical
deriving DecidableEq

/-- Dataclass `SystemAlert`, abstracted to the fields the health analysis
determines (message text, timestamp and optional data dropped). -/
structure SystemAlert where
  component : SystemComponent
  level : AlertLevel
deriving DecidableEq

/-- Method `StatusMonitor._record_alert` as it affects the global `_alert_history`:
an unconditional append (it also appends to the component's own list and
dispatches level callbacks). -/
def record_alert (hist : List SystemAlert) (c : SystemComponent)
    (l : AlertLevel) : List SystemAlert :=
  hist ++ [⟨c, l⟩]

/-- The health branch of `StatusMonitor._analyze_system_health` for one
component: `health < 20` records a Critical alert, else `health < 50`
records a Warning alert, else no health alert.  (The separate staleness
branch, which depends on wall-clock time and records an Error alert, is
independent of the health value and omitted.) -/
def analyze_component_health (c : SystemComponent) (health : ℚ)
    (hist : List SystemAlert) : List SystemAlert :=
  if health < 20 then
    record_alert hist c .critical
  else if health < 50 then
    record_alert hist c .warning
  else
    hist

/-! ## src/core/system_interface/main_controller.py -/

/-- Enum `SystemState` of the main controller. -/
inductive SystemState where
  | initializing
  | ready
  | projecting
  | interactive
  | low_power
  | error
  | shutdown
deriving DecidableEq

/-- The parts of the `MainController`'s owned state that a `shutdown()` call
can read or write.  `laser_stop_ok` / `mems_stop_ok` abstract whether the
laser driver's disable+reset sequence resp. the MEMS driver's emergency stop
complete without raising: that outcome is a function of driver/SPI
initialization state which none of the calls made during `shutdown()`
changes, so it is modelled as a constant oracle bit per device.  The flags
of the components whose cleanup is never reached (voice, interaction,
meta-surface, the four power controllers, status and safety monitors) are
kept so the frame of the call is explicit. -/
structure MainController where
  state : SystemState
  status_monitoring : Bool
  safety_monitoring : Bool
  gesture_ready : Bool
  interaction_ready : Bool
  voice_ready : Bool
  motion_sensor_ready : Bool
  motion_sensor_active : Bool
  laser_active : Bool
  laser_stop_ok : Bool
  mems_scanning : Bool
  mems_stop_ok : Bool
  meta_configured : Bool
  thermal_running : Bool
  motion_running : Bool
  supercap_running : Bool
  battery_running : Bool
deriving DecidableEq

/-- Method `GestureRecognizer.cleanup`: clears `_initialized`, then calls
`MotionDriver.stop_monitoring` — when the motion driver is initialized this
reaches the register write, which always raises (`_write_register` passes
two arguments to `I2CInterface.write_register`, which needs three), and the
driver's except clause forces `_monitoring_active = False` before
re-raising; when not initialized it returns without changes.  On the
surviving path the method then calls `self._motion_driver.cleanup()`, a
method `MotionDriver` does not define (`AttributeError`).  Either way the
gesture cleanup's own except clause re-raises as `InteractionError`, so the
call always fails; the state below is the state at the raise. -/
def MainController.gesture_cleanup (m : MainController) : MainController :=
  let m1 := { m with gesture_ready := false }
  if m1.motion_sensor_ready then
    { m1 with motion_sensor_active := false }
  else
    m1

/-- Method `LaserController.emergency_shutdown`: driver errors are swallowed
by its own except clause, so `_is_active` clears only when the driver's
disable+reset sequence succeeds. -/
def MainController.laser_emergency_shutdown (m : MainController) :
    MainController :=
  if m.laser_stop_ok then { m with laser_active := false } else m

/-- Method `MEMSController.emergency_stop`: driver errors are swallowed by
its own except clause, so `_is_scanning` clears only when the MEMS driver's
emergency stop succeeds. -/
def MainController.mems_emergency_stop (m : MainController) :
    MainController :=
  if m.mems_stop_ok then { m with mems_scanning := false } else m

/-- Method `MainController._handle_emergency_shutdown`: sets
`state = SHUTDOWN`, stops laser and MEMS (each swallowing its own driver
errors), then calls `BatteryController.emergency_shutdown()` — a method
`BatteryController` does not define — so the `AttributeError` is caught by
the handler's own except clause and the supercapacitor stop and the
status-monitor alert are never reached. -/
def MainController.handle_emergency_shutdown (m : MainController) :
    MainController :=
  let m1 := { m with state := SystemState.shutdown }
  (m1.laser_emergency_shutdown).mems_emergency_stop

/-- Method `MainController.shutdown`: sets `state = SHUTDOWN` *first*; the
following `state in [PROJECTING, INTERACTIVE]` guard reads the state just
assigned, so it never fires and `stop_hologram_projection` is unreachable
from here (the guard is therefore omitted).  The first cleanup in the try
block — `gesture_recognizer.cleanup()` — always raises (see
`gesture_cleanup`), so every later cleanup (voice, interaction, laser,
MEMS, meta-surface, the four power controllers, status and safety
monitors) is unreachable dead code; the except block logs, runs
`_handle_emergency_shutdown` (whose own failures are swallowed), and
returns `False`. -/
def MainController.shutdown (m : MainController) : Bool × MainController :=
  let m1 := { m with state := SystemState.shutdown }
  (false, (m1.gesture_cleanup).handle_emergency_shutdown)

/-! ## Helper lemmas -/

/-- Method `_apply_power_profile` only touches the battery output and the
supercapacitor burst flag; `current_state` is untouched. -/
theorem apply_power_profile_current_state
    (pms : PowerManagementSystem) (s : PowerState) :
    (pms.apply_power_profile s).current_state = pms.current_state := by
  unfold PowerManagementSystem.apply_power_profile
  split <;> rfl

/-- Method `request_power_state` never changes the supercapacitor voltage: the
failure paths return the state unchanged, and the success path only toggles
the burst flag via `_apply_power_profile`. -/
theorem request_power_state_supercap_voltage
    (pms : PowerManagementSystem) (t : PowerState) :
    ((pms.request_power_state t).2).supercapacitor.voltage =
      pms.supercapacitor.voltage := by
  unfold PowerManagementSystem.request_power_state
  by_cases hv : pms.validate_state_transition t
  · by_cases hc : pms.check_power_availability (power_profiles t).min_power
    · simp only [hv, hc, if_true]
      unfold PowerManagementSystem.apply_power_profile
      split <;> rfl
    · simp [hv, hc]
  · simp [hv]

/-! ## Claim theorems: power controller -/

/-- C1: for every pair of states `(s, t)` with `t` not in the adjacency table
entry for `s = current_state`, `request_power_state t` fails with
`InvalidTransition` and leaves the whole system state (in particular
`current_state` and the battery/supercapacitor outputs) unchanged; more
generally, on any failure of `request_power_state` the system state is
unchanged. -/
theorem request_power_state_failure_frame
    (pms : PowerManagementSystem) (t : PowerState) :
    (t ∉ valid_transitions pms.current_state →
      (pms.request_power_state t).1 = Except.error PowerError.invalidTransition ∧
      (pms.request_power_state t).2 = pms) ∧
    (∀ e, (pms.request_power_state t).1 = Except.error e →
      (pms.request_power_state t).2 = pms) := by
  constructor
  · intro h
    have hv : pms.validate_state_transition t = false := by
      simp [PowerManagementSystem.validate_state_transition, h]
    simp [PowerManagementSystem.request_power_state, hv]
  · intro e he
    unfold PowerManagementSystem.request_power_state at he ⊢
    by_cases hv : pms.validate_state_transition t
    · by_cases hc :
        pms.check_power_availability (power_profiles t).min_power
      · simp [hv, hc] at he
      · simp [hv, hc]
    · simp [hv]

/-- Witness for C1: from the initial state (`Standby`), requesting `Burst` is
not adjacent, fails with `InvalidTransition`, and leaves the system
unchanged. -/
theorem request_power_state_failure_frame_witness :
    (pmsInit.request_power_state .burst).1 =
      Except.error PowerError.invalidTransition ∧
    (pmsInit.request_power_state .burst).2 = pmsInit :=
  (request_power_state_failure_frame pmsInit .burst).1 (by decide)

/-- C3: for every target `t` adjacent to the current state,
`request_power_state t` fails with `InsufficientPower` iff the summed
available power of the four sources is strictly below
`power_profiles[t].min_power`; otherwise it succeeds and sets
`current_state` to `t`. -/
theorem request_power_state_adjacent_power_check
    (pms : PowerManagementSystem) (t : PowerState)
    (h : t ∈ valid_transitions pms.current_state) :
    ((pms.request_power_state t).1 = Except.error PowerError.insufficientPower ↔
      pms.total_available_power < (power_profiles t).min_power) ∧
    ((power_profiles t).min_power ≤ pms.total_available_power →
      (pms.request_power_state t).1 = Except.ok () ∧
      ((pms.request_power_state t).2).current_state = t) := by
  have hv : pms.validate_state_transition t = true := by
    simp [PowerManagementSystem.validate_state_transition, h]
  unfold PowerManagementSystem.request_power_state
  by_cases hc : pms.check_power_availability (power_profiles t).min_power
  · have hle : (power_profiles t).min_power ≤ pms.total_available_power := by
      simpa [PowerManagementSystem.check_power_availability] using hc
    simp [hv, hc, apply_power_profile_current_state, not_lt.mpr hle]
  · have hlt : pms.total_available_power < (power_profiles t).min_power := by
      have := hc
      simp [PowerManagementSystem.check_power_availability, not_le] at this
      exact this
    simp [hv, hc, hlt, not_le.mpr hlt]

/-- Witness for C3: from the initial state, `Active` is adjacent, the summed
available power (1.11 W battery + 0 W supercap + 0.005 W thermal +
0.005 W motion = 1.12 W) covers the 0.5 W minimum, so the request succeeds
and the state becomes `Active`. -/
theorem request_power_state_adjacent_power_check_witness :
    (pmsInit.request_power_state .active).1 = Except.ok () ∧
    ((pmsInit.request_power_state .active).2).current_state = .active := by
  have h : PowerState.active ∈ valid_transitions pmsInit.current_state := by
    decide
  have hp : (power_profiles PowerState.active).min_power ≤
      pmsInit.total_available_power := by
    norm_num [pmsInit, power_profiles,
      PowerManagementSystem.total_available_power,
      LithiumSulfurBattery.get_available_power,
      Supercapacitor.get_available_power,
      ThermalGenerator.get_current_power,
      MotionGenerator.get_current_power]
  exact (request_power_state_adjacent_power_check pmsInit .active h).2 hp

/-- C9: `monitor_power_consumption` returns a snapshot built from the four
sources' *current* power (`get_current_power`, not available power),
timestamped with the passed-in clock value, and its only effect is appending
that snapshot to `power_history`: state, battery, supercapacitor and both
harvesters are unchanged. -/
theorem monitor_power_consumption_spec
    (pms : PowerManagementSystem) (ts : ℚ) :
    (pms.monitor_power_consumption ts).1.timestamp = ts ∧
    (pms.monitor_power_consumption ts).1.primary_power =
      pms.primary_battery.get_current_power ∧
    (pms.monitor_power_consumption ts).1.supercap_power =
      pms.supercapacitor.get_current_power ∧
    (pms.monitor_power_consumption ts).1.thermal_power =
      pms.thermal_generator.get_current_power ∧
    (pms.monitor_power_consumption ts).1.motion_power =
      pms.motion_generator.get_current_power ∧
    (pms.monitor_power_consumption ts).2.current_state = pms.current_state ∧
    (pms.monitor_power_consumption ts).2.primary_battery =
      pms.primary_battery ∧
    (pms.monitor_power_consumption ts).2.supercapacitor =
      pms.supercapacitor ∧
    (pms.monitor_power_consumption ts).2.thermal_generator =
      pms.thermal_generator ∧
    (pms.monitor_power_consumption ts).2.motion_generator =
      pms.motion_generator ∧
    (pms.monitor_power_consumption ts).2.battery_level = pms.battery_level ∧
    (pms.monitor_power_consumption ts).2.temperature = pms.temperature ∧
    (pms.monitor_power_consumption ts).2.power_history =
      pms.power_history ++ [(pms.monitor_power_consumption ts).1] :=
  ⟨rfl, rfl, rfl, rfl, rfl, rfl, rfl, rfl, rfl, rfl, rfl, rfl, rfl⟩

/-- C10: `charge_supercapacitor` never changes the supercapacitor: for every
battery level (above 50% the call reaches `Supercapacitor.charge`, whose body
is `pass`), voltage and hence available power are unchanged — in fact the
whole system state is unchanged. -/
theorem charge_supercapacitor_frame (pms : PowerManagementSystem) :
    (pms.charge_supercapacitor).supercapacitor.voltage =
      pms.supercapacitor.voltage ∧
    (pms.charge_supercapacitor).supercapacitor.get_available_power =
      pms.supercapacitor.get_available_power ∧
    pms.charge_supercapacitor = pms := by
  have h : pms.charge_supercapacitor = pms := by
    unfold PowerManagementSystem.charge_supercapacitor Supercapacitor.charge
    split <;> rfl
  exact ⟨by rw [h], by rw [h], h⟩

/-- C6: available supercapacitor power is `½·C·V²` for positive voltage and 0
otherwise; with burst mode off, delivered (`get_current_power`) power is 0
even when available power is nonzero; and in the §8 scenario (fresh system,
supercapacitor voltage 0) the available power reads 0, still after the
Standby→Active→Burst transitions and before any charge. -/
theorem supercapacitor_power_gating (s : Supercapacitor) :
    (s.voltage > 0 → s.get_available_power = 1/2 * s.capacity * s.voltage ^ 2) ∧
    (¬ s.voltage > 0 → s.get_available_power = 0) ∧
    (s.in_burst_mode = false → s.get_current_power = 0) ∧
    (s.voltage = 0 → s.get_available_power = 0) ∧
    ((pmsInit.request_power_state .active).2.request_power_state
        .burst).2.supercapacitor.get_available_power = 0 := by
  refine ⟨?_, ?_, ?_, ?_, ?_⟩
  · intro h
    simp [Supercapacitor.get_available_power, h]
  · intro h
    simp [Supercapacitor.get_available_power, h]
  · intro h
    simp [Supercapacitor.get_current_power, h]
  · intro h
    simp [Supercapacitor.get_available_power, h]
  · have h0 : ((pmsInit.request_power_state .active).2.request_power_state
        .burst).2.supercapacitor.voltage = 0 := by
      rw [request_power_state_supercap_voltage,
        request_power_state_supercap_voltage]
      rfl
    simp [Supercapacitor.get_available_power, h0]

/-- Witness for C6: a supercapacitor at 0 V with burst mode off delivers no
power and has no available power. -/
theorem supercapacitor_power_gating_witness :
    (Supercapacitor.mk 100 0 false).get_current_power = 0 ∧
    (Supercapacitor.mk 100 0 false).get_available_power = 0 :=
  ⟨(supercapacitor_power_gating (Supercapacitor.mk 100 0 false)).2.2.1 rfl,
   (supercapacitor_power_gating (Supercapacitor.mk 100 0 false)).2.2.2.1 rfl⟩

/-! ## Claim theorems: battery level -/

/-- C5: the computed battery level is 0 at `min_voltage = 3.2 V`, 100 at
`max_voltage = 4.2 V`, and monotone in the voltage (the clamped linear
interpolation). -/
theorem calculate_battery_level_interpolation :
    calculate_battery_level (32/10) = 0 ∧
    calculate_battery_level (42/10) = 100 ∧
    ∀ v₁ v₂ : ℚ, v₁ ≤ v₂ →
      calculate_battery_level v₁ ≤ calculate_battery_level v₂ := by
  refine ⟨?_, ?_, ?_⟩
  · norm_num [calculate_battery_level]
  · norm_num [calculate_battery_level, max_def, min_def]
  · intro v₁ v₂ h
    unfold calculate_battery_level
    refine max_le_max (min_le_min ?_ le_rfl) le_rfl
    have hd : (0:ℚ) < 42/10 - 32/10 := by norm_num
    have h1 : v₁ - 32/10 ≤ v₂ - 32/10 := by linarith
    exact mul_le_mul_of_nonneg_right ((div_le_div_iff_of_pos_right hd).mpr h1)
      (by norm_num)

/-- Witness for C5: the monotonicity instance at voltages 3.5 V and 4 V. -/
theorem calculate_battery_level_interpolation_witness :
    calculate_battery_level (35/10) ≤ calculate_battery_level (4) :=
  calculate_battery_level_interpolation.2.2 (35/10) 4 (by norm_num)

/-! ## Claim theorems: safety monitor hysteresis (C2) -/

/-- C2 as stated is false: on the sequence
[0, warning+1, critical+1, warning+1, recovery−1] for the Temperature
condition (warning 40, critical 50, recovery 35), the threshold action is
executed twice — once by `_handle_critical_condition` and once more by
`_process_safety_actions` in the same tick — not exactly once. -/
theorem safety_monitor_action_twice_counterexample :
    (run_safety_monitor (safety_thresholds .temperature)
        [0, 41, 51, 41, 34] {}).actions_executed =
      [SafetyAction.shutdown, SafetyAction.shutdown] ∧
    ¬ (run_safety_monitor (safety_thresholds .temperature)
        [0, 41, 51, 41, 34] {}).actions_executed.length = 1 := by
  norm_num [run_safety_monitor, safety_monitor_tick, check_safety_threshold,
    process_safety_actions, safety_thresholds]

/-- C2 amended: on the value sequence
[0, warning+1, critical+1, warning+1, recovery−1] the monitor records
exactly one Critical-entry event and exactly one recovery event, but the
threshold's action is executed exactly twice (once by the critical-condition
handler, once by the per-tick action processor), for any threshold whose
levels satisfy `0 < warning`, `warning + 1 < critical` and
`recovery < warning`. -/
theorem safety_monitor_hysteresis_amended (t : SafetyThreshold)
    (h0 : 0 < t.warning_level)
    (hwc : t.warning_level + 1 < t.critical_level)
    (hrw : t.recovery_level < t.warning_level) :
    count_events_of_kind .critical_entry
      (run_safety_monitor t
        [0, t.warning_level + 1, t.critical_level + 1,
          t.warning_level + 1, t.recovery_level - 1] {}).safety_events = 1 ∧
    count_events_of_kind .recovery
      (run_safety_monitor t
        [0, t.warning_level + 1, t.critical_level + 1,
          t.warning_level + 1, t.recovery_level - 1] {}).safety_events = 1 ∧
    (run_safety_monitor t
        [0, t.warning_level + 1, t.critical_level + 1,
          t.warning_level + 1, t.recovery_level - 1] {}).actions_executed =
      [t.action, t.action] := by
  have hca : ¬ ((0:ℚ) ≥ t.critical_level) := by
    push_neg
    linarith
  have hwa : ¬ ((0:ℚ) ≥ t.warning_level) := by
    push_neg
    linarith
  have hcb : ¬ (t.warning_level + 1 ≥ t.critical_level) := by
    push_neg
    linarith
  have hwb : t.warning_level + 1 ≥ t.warning_level := by linarith
  have hcc : t.critical_level + 1 ≥ t.critical_level := by linarith
  have hcr : ¬ (t.recovery_level - 1 ≥ t.critical_level) := by
    push_neg
    linarith
  have hwr : ¬ (t.recovery_level - 1 ≥ t.warning_level) := by
    push_neg
    linarith
  have hrr : t.recovery_level - 1 ≤ t.recovery_level := by linarith
  simp only [run_safety_monitor, List.foldl_cons, List.foldl_nil,
    safety_monitor_tick, check_safety_threshold, process_safety_actions]
  simp [hca, hwa, hcb, hwb, hcc, hcr, hwr, hrr, count_events_of_kind]

/-- Witness for C2's amended claim: the Temperature threshold (warning 40,
critical 50, recovery 35) satisfies the level hypotheses, and on
[0, 41, 51, 41, 34] yields one critical-entry event, one recovery event and
two executions of its `SHUTDOWN` action. -/
theorem safety_monitor_hysteresis_amended_witness :
    count_events_of_kind .critical_entry
      (run_safety_monitor (safety_thresholds .temperature)
        [0, 41, 51, 41, 34] {}).safety_events = 1 ∧
    count_events_of_kind .recovery
      (run_safety_monitor (safety_thresholds .temperature)
        [0, 41, 51, 41, 34] {}).safety_events = 1 ∧
    (run_safety_monitor (safety_thresholds .temperature)
        [0, 41, 51, 41, 34] {}).actions_executed =
      [(safety_thresholds .temperature).action,
        (safety_thresholds .temperature).action] := by
  have h := safety_monitor_hysteresis_amended (safety_thresholds .temperature)
    (by norm_num [safety_thresholds]) (by norm_num [safety_thresholds])
    (by norm_num [safety_thresholds])
  norm_num [safety_thresholds] at h
  exact h

/-! ## Claim theorems: safety threshold ordering (C4) -/

/-- C4 as stated is false: the default `POWER` threshold (warning 15,
critical 5, recovery 20) violates `recovery < warning < critical`, and it is
nevertheless held by the safety manager (no construction-time check
rejected it). -/
theorem safety_thresholds_power_ordering_counterexample :
    ¬ ((safety_thresholds .power).recovery_level <
        (safety_thresholds .power).warning_level ∧
      (safety_thresholds .power).warning_level <
        (safety_thresholds .power).critical_level) := by
  norm_num [safety_thresholds]

/-- C4 amended: of the five default thresholds, all except `POWER` satisfy
`recovery < warning < critical`; the `POWER` threshold (a
lower-is-dangerous battery-level condition) satisfies the reverse ordering
`critical < warning < recovery`; and `SafetyThreshold` construction performs
no validation at all — any field values are stored verbatim. -/
theorem safety_thresholds_ordering_amended :
    (∀ c : SafetyCondition, c ≠ .power →
      (safety_thresholds c).recovery_level <
        (safety_thresholds c).warning_level ∧
      (safety_thresholds c).warning_level <
        (safety_thresholds c).critical_level) ∧
    ((safety_thresholds .power).critical_level <
        (safety_thresholds .power).warning_level ∧
      (safety_thresholds .power).warning_level <
        (safety_thresholds .power).recovery_level) ∧
    (∀ (c : SafetyCondition) (w cr r : ℚ) (a : SafetyAction),
      (SafetyThreshold.mk c w cr a r).warning_level = w ∧
      (SafetyThreshold.mk c w cr a r).critical_level = cr ∧
      (SafetyThreshold.mk c w cr a r).recovery_level = r) := by
  refine ⟨?_, by norm_num [safety_thresholds], fun c w cr r a => ⟨rfl, rfl, rfl⟩⟩
  intro c hc
  cases c <;> norm_num [safety_thresholds] at hc ⊢

/-- Witness for C4's amended claim: the Temperature threshold satisfies
35 < 40 < 50. -/
theorem safety_thresholds_ordering_amended_witness :
    (safety_thresholds .temperature).recovery_level <
      (safety_thresholds .temperature).warning_level ∧
    (safety_thresholds .temperature).warning_level <
      (safety_thresholds .temperature).critical_level :=
  safety_thresholds_ordering_amended.1 .temperature (by decide)

/-! ## Claim theorems: status monitor health alerts (C7) -/

/-- C7: at each health-analysis pass, health below 20 records a Critical
alert, health in [20, 50) records a Warning alert, health at least 50
records no health alert; the mapping is re-evaluated on every pass with no
deduplication, so a persisting condition appends the same alert again. -/
theorem analyze_component_health_mapping (c : SystemComponent) (health : ℚ)
    (hist : List SystemAlert) :
    (health < 20 →
      analyze_component_health c health hist =
        hist ++ [⟨c, .critical⟩]) ∧
    (20 ≤ health → health < 50 →
      analyze_component_health c health hist =
        hist ++ [⟨c, .warning⟩]) ∧
    (50 ≤ health → analyze_component_health c health hist = hist) ∧
    (health < 20 →
      analyze_component_health c health
          (analyze_component_health c health hist) =
        hist ++ [⟨c, .critical⟩, ⟨c, .critical⟩]) ∧
    (20 ≤ health → health < 50 →
      analyze_component_health c health
          (analyze_component_health c health hist) =
        hist ++ [⟨c, .warning⟩, ⟨c, .warning⟩]) := by
  refine ⟨?_, ?_, ?_, ?_, ?_⟩
  · intro h
    simp [analyze_component_health, record_alert, h]
  · intro h1 h2
    simp [analyze_component_health, record_alert, h2, not_lt.mpr h1]
  · intro h
    have h1 : ¬ health < 20 := by linarith
    have h2 : ¬ health < 50 := by linarith
    simp [analyze_component_health, h1, h2]
  · intro h
    simp [analyze_component_health, record_alert, h]
  · intro h1 h2
    simp [analyze_component_health, record_alert, h2, not_lt.mpr h1]

/-- Witness for C7: a component at health 10 gets a Critical alert recorded
on each of two successive passes. -/
theorem analyze_component_health_mapping_witness :
    analyze_component_health .power 10
        (analyze_component_health .power 10 []) =
      [⟨.power, .critical⟩, ⟨.power, .critical⟩] := by
  have h := (analyze_component_health_mapping .power 10 []).2.2.2.1
    (by norm_num)
  simpa using h

/-! ## Claim theorems: main controller shutdown (C8) -/

/-- A fully running controller: `READY` state, every subsystem flag set,
both device stop sequences able to succeed. -/
def mcRunning : MainController where
  state := .ready
  status_monitoring := true
  safety_monitoring := true
  gesture_ready := true
  interaction_ready := true
  voice_ready := true
  motion_sensor_ready := true
  motion_sensor_active := true
  laser_active := true
  laser_stop_ok := true
  mems_scanning := true
  mems_stop_ok := true
  meta_configured := true
  thermal_running := true
  motion_running := true
  supercap_running := true
  battery_running := true

/-- C8 as stated is false: `shutdown()` does not return success even once —
on a fully running controller the first call already returns `False`
(the gesture-recognizer cleanup raises because `MotionDriver` has no
`cleanup` method, aborting the cleanup sequence), and so does the second. -/
theorem shutdown_not_successful_counterexample :
    ¬ ((mcRunning.shutdown).1 = true ∧
      ((mcRunning.shutdown).2.shutdown).1 = true) := by
  decide

/-- C8 amended: both calls to `shutdown()` return failure (`False`), not
success — the gesture-recognizer cleanup always raises and the emergency
fallback itself aborts at the nonexistent
`BatteryController.emergency_shutdown` — while the rest of the claim
stands: the state is set to `SHUTDOWN` before the failure and stays
`SHUTDOWN`, and the second call is a no-op on the controller state. -/
theorem shutdown_failure_idempotent (m : MainController) :
    (m.shutdown).1 = false ∧
    (m.shutdown).2.state = SystemState.shutdown ∧
    ((m.shutdown).2.shutdown).1 = false ∧
    ((m.shutdown).2.shutdown).2 = (m.shutdown).2 := by
  obtain ⟨st, sm, fm, gr, ir, vr, msr, msa, la, lok, ms, mok, mcf, tr,
    mr, sr, br⟩ := m
  unfold MainController.shutdown MainController.gesture_cleanup
    MainController.handle_emergency_shutdown
    MainController.laser_emergency_shutdown
    MainController.mems_emergency_stop
  cases msr <;> cases lok <;> cases mok <;> exact ⟨rfl, rfl, rfl, rfl⟩

end Watch
